import Mathlib

/-!
Verification of the page interaction script (src/script.js): theme toggle,
FAQ accordion, and contact-form validation with keyup feedback.

Strings are modelled as lists of characters (a JS string is a sequence of
code units; all values involved here are plain characters, so a character
list is a faithful model).  The DOM slots the script reads and writes are
gathered into explicit state records:

* `ThemeState` — the page root marker class and the toggle button label;
* `FaqPair`    — one question/answer pair: the answer panel marker and the
                 question marker; the page holds a list of such pairs;
* `FormState`  — the four inputs, each with its value, the text of its
                 sibling error element, and its marker class, plus the text
                 of the success-message element.

Each event handler of the script becomes a state-transformer function.
-/

namespace PageScript

/-- The whitespace class used by the JS string trim method and by the
regex class in the script (the characters relevant to this program). -/
def isJsWhitespace (c : Char) : Bool :=
  c = ' ' || c = '\t' || c = '\n' || c = '\r' || c = '\x0b' || c = '\x0c'

/-- JS string trim: drop leading and trailing whitespace. -/
def jsTrim (s : List Char) : List Char :=
  ((s.dropWhile isJsWhitespace).reverse.dropWhile isJsWhitespace).reverse

/-- A character admitted by the regex character class that excludes
whitespace and the at-sign (written as a negated class in the script). -/
def isEmailChar (c : Char) : Bool :=
  !isJsWhitespace c && c != '@'

/-- Match of the final regex fragment: a literal dot followed by one or
more admitted characters, up to the end of the string. -/
def matchDotTail : List Char → Bool
  | '.' :: rest => !rest.isEmpty && rest.all isEmailChar
  | _ => false

/-- Match of the domain fragment: one or more admitted characters, a
literal dot, then one or more admitted characters, to the end. -/
def matchDomain : List Char → Bool
  | [] => false
  | c :: rest => isEmailChar c && (matchDotTail rest || matchDomain rest)

/-- Match from just after the first character: zero or more admitted
characters, an at-sign, then the domain fragment.  The at-sign is not an
admitted character, so the split at the first at-sign is the only one. -/
def matchLocalAt : List Char → Bool
  | [] => false
  | c :: rest => if c = '@' then matchDomain rest else (isEmailChar c && matchLocalAt rest)

/-- Whole-string test of the email regex of the script: one or more
admitted characters, an at-sign, one or more admitted characters, a dot,
one or more admitted characters. -/
def emailRegexTest : List Char → Bool
  | [] => false
  | c :: rest => isEmailChar c && matchLocalAt rest

/-- One validated input: its current value, the text content of its
sibling error element, and whether its marker class is present. -/
structure FieldState where
  value : List Char
  errorText : List Char
  invalid : Bool
  deriving DecidableEq, Repr

/-- The form-related DOM state: the four inputs and the success element. -/
structure FormState where
  name : FieldState
  email : FieldState
  password : FieldState
  confirmPassword : FieldState
  successText : List Char
  deriving DecidableEq, Repr

def nameErrMsg : List Char := "Name must be at least 3 characters long.".toList

def emailErrMsg : List Char := "Please enter a valid email address.".toList

def passwordErrMsg : List Char := "Password must be at least 8 characters.".toList

def confirmErrMsg : List Char := "Passwords do not match.".toList

/-- The literal success message.  The source file stores the trailing
decoration as the four code points 00F0 0178 017D 2030. -/
def successMsg : List Char :=
  "Form submitted successfully! ðŸŽ‰".toList

/-- Helper of the script: write a message into the error element and add
the marker class to the input. -/
def displayError (f : FieldState) (msg : List Char) : FieldState :=
  { f with errorText := msg, invalid := true }

/-- Helper of the script: empty the error element and remove the marker
class from the input. -/
def clearError (f : FieldState) : FieldState :=
  { f with errorText := [], invalid := false }

/-- The main validation function: clear the four error displays and the
success message, then check each rule in turn, recording an error and
flipping the result flag on each failure, and return the flag. -/
def validateForm (s : FormState) : FormState × Bool :=
  let s := { s with name := clearError s.name, email := clearError s.email,
                    password := clearError s.password,
                    confirmPassword := clearError s.confirmPassword,
                    successText := [] }
  let isValid := true
  let (s, isValid) :=
    if (jsTrim s.name.value).length < 3 then
      ({ s with name := displayError s.name nameErrMsg }, false)
    else (s, isValid)
  let (s, isValid) :=
    if !emailRegexTest (jsTrim s.email.value) then
      ({ s with email := displayError s.email emailErrMsg }, false)
    else (s, isValid)
  let (s, isValid) :=
    if s.password.value.length < 8 then
      ({ s with password := displayError s.password passwordErrMsg }, false)
    else (s, isValid)
  let (s, isValid) :=
    if s.confirmPassword.value ≠ s.password.value then
      ({ s with confirmPassword := displayError s.confirmPassword confirmErrMsg }, false)
    else (s, isValid)
  (s, isValid)

/-- The submit handler: the native submission is suppressed, the pass is
run; on success the success message is written and the input values are
reset, on failure the success message is emptied. -/
def formSubmit (s : FormState) : FormState :=
  if (validateForm s).2 then
    { (validateForm s).1 with
      successText := successMsg,
      name := { (validateForm s).1.name with value := [] },
      email := { (validateForm s).1.email with value := [] },
      password := { (validateForm s).1.password with value := [] },
      confirmPassword := { (validateForm s).1.confirmPassword with value := [] } }
  else
    { (validateForm s).1 with successText := [] }

/-- Keyup handler on the name input: clear its error once the rule holds. -/
def nameKeyup (s : FormState) : FormState :=
  if 3 ≤ (jsTrim s.name.value).length then { s with name := clearError s.name } else s

/-- Keyup handler on the email input: clear its error once the rule holds. -/
def emailKeyup (s : FormState) : FormState :=
  if emailRegexTest (jsTrim s.email.value) then { s with email := clearError s.email } else s

/-- Keyup handler on the password input: clear its error once long enough. -/
def passwordKeyup (s : FormState) : FormState :=
  if 8 ≤ s.password.value.length then { s with password := clearError s.password } else s

/-- Keyup handler on the confirm input: clear its error once it equals the
current value of the password input. -/
def confirmPasswordKeyup (s : FormState) : FormState :=
  if s.confirmPassword.value = s.password.value then
    { s with confirmPassword := clearError s.confirmPassword }
  else s

/-- The theme-toggle state: the marker class on the page root and the text
of the toggle button. -/
structure ThemeState where
  darkMode : Bool
  buttonLabel : List Char
  deriving DecidableEq, Repr

def darkLabel : List Char := "Switch to Light Mode".toList

def lightLabel : List Char := "Switch to Dark Mode".toList

/-- The click handler of the toggle button: flip the marker on the page
root, then write the label that matches the new mode. -/
def themeToggleClick (t : ThemeState) : ThemeState :=
  let dark := !t.darkMode
  { darkMode := dark, buttonLabel := if dark then darkLabel else lightLabel }

/-- One FAQ question/answer pair: the marker on the answer panel and the
marker on the question element. -/
structure FaqPair where
  showMarker : Bool
  active : Bool
  deriving DecidableEq, Repr

/-- The click handler attached to one question: flip the answer marker and
the question marker of that pair. -/
def faqToggle (p : FaqPair) : FaqPair :=
  { showMarker := !p.showMarker, active := !p.active }

/-- Clicking the question of pair `i` in the page's list of pairs. -/
def faqClick (pairs : List FaqPair) (i : Nat) : List FaqPair :=
  match pairs[i]? with
  | some p => pairs.set i (faqToggle p)
  | none => pairs

/-- Closed form of the validation pass: each output field keeps its value
and carries exactly the error of its own rule, the success message is
emptied, and the returned flag is the conjunction of the four rules. -/
theorem validateForm_eq (s : FormState) :
    validateForm s =
      ({ name := { value := s.name.value,
                   errorText := if (jsTrim s.name.value).length < 3 then nameErrMsg else [],
                   invalid := decide ((jsTrim s.name.value).length < 3) },
         email := { value := s.email.value,
                    errorText := if emailRegexTest (jsTrim s.email.value) then [] else emailErrMsg,
                    invalid := !emailRegexTest (jsTrim s.email.value) },
         password := { value := s.password.value,
                       errorText := if s.password.value.length < 8 then passwordErrMsg else [],
                       invalid := decide (s.password.value.length < 8) },
         confirmPassword := { value := s.confirmPassword.value,
                              errorText := if s.confirmPassword.value = s.password.value then []
                                           else confirmErrMsg,
                              invalid := !decide (s.confirmPassword.value = s.password.value) },
         successText := [] },
       (!decide ((jsTrim s.name.value).length < 3) &&
        emailRegexTest (jsTrim s.email.value) &&
        !decide (s.password.value.length < 8) &&
        decide (s.confirmPassword.value = s.password.value))) := by
  by_cases h1 : (jsTrim s.name.value).length < 3 <;>
  by_cases h2 : emailRegexTest (jsTrim s.email.value) = true <;>
  by_cases h3 : s.password.value.length < 8 <;>
  by_cases h4 : s.confirmPassword.value = s.password.value <;>
  simp [validateForm, displayError, clearError, h1, h2, h3, h4]

/-- A form state with the given input values, empty error displays, no
markers, and an empty success message. -/
def mkFormState (n e p c : List Char) : FormState :=
  { name := ⟨n, [], false⟩, email := ⟨e, [], false⟩, password := ⟨p, [], false⟩,
    confirmPassword := ⟨c, [], false⟩, successText := [] }

/-- The form state of a freshly loaded page: everything empty. -/
def emptyForm : FormState := mkFormState [] [] [] []

/-- C1: the full validation pass clears all four error displays and the
global success message, evaluates all four field rules unconditionally
(each output field carries exactly the verdict of its own rule, whatever
the other fields hold), writes the rule's message and the invalid marker
on each failing field, and returns the conjunction of the four rules'
results. -/
theorem validateForm_full_pass (s : FormState) :
    (validateForm s).1.successText = [] ∧
    (validateForm s).1.name =
      { value := s.name.value,
        errorText := if 3 ≤ (jsTrim s.name.value).length then [] else nameErrMsg,
        invalid := !decide (3 ≤ (jsTrim s.name.value).length) } ∧
    (validateForm s).1.email =
      { value := s.email.value,
        errorText := if emailRegexTest (jsTrim s.email.value) then [] else emailErrMsg,
        invalid := !emailRegexTest (jsTrim s.email.value) } ∧
    (validateForm s).1.password =
      { value := s.password.value,
        errorText := if 8 ≤ s.password.value.length then [] else passwordErrMsg,
        invalid := !decide (8 ≤ s.password.value.length) } ∧
    (validateForm s).1.confirmPassword =
      { value := s.confirmPassword.value,
        errorText := if s.confirmPassword.value = s.password.value then [] else confirmErrMsg,
        invalid := !decide (s.confirmPassword.value = s.password.value) } ∧
    (validateForm s).2 =
      (decide (3 ≤ (jsTrim s.name.value).length) &&
       emailRegexTest (jsTrim s.email.value) &&
       decide (8 ≤ s.password.value.length) &&
       decide (s.confirmPassword.value = s.password.value)) := by
  have e1 : (jsTrim s.name.value).length < 3 ↔ ¬ 3 ≤ (jsTrim s.name.value).length := by omega
  have e3 : s.password.value.length < 8 ↔ ¬ 8 ≤ s.password.value.length := by omega
  rw [validateForm_eq]
  by_cases h1 : 3 ≤ (jsTrim s.name.value).length <;>
  by_cases h2 : emailRegexTest (jsTrim s.email.value) = true <;>
  by_cases h3 : 8 ≤ s.password.value.length <;>
  by_cases h4 : s.confirmPassword.value = s.password.value <;>
  simp [e1, e3, h1, h2, h3, h4]

/-- C8: the validation pass is idempotent — run twice on unchanged input
values, the second run reproduces the first run's error texts, markers,
success message and result. -/
theorem validateForm_idempotent (s : FormState) :
    validateForm ((validateForm s).1) = validateForm s := by
  have h := validateForm_eq s
  rw [h, validateForm_eq]

/-- C9: the validation pass is a function of the four input values alone —
two states agreeing on the four values get identical outputs, whatever
their prior error texts, markers and success message. -/
theorem validateForm_deterministic (s t : FormState)
    (h1 : s.name.value = t.name.value) (h2 : s.email.value = t.email.value)
    (h3 : s.password.value = t.password.value)
    (h4 : s.confirmPassword.value = t.confirmPassword.value) :
    validateForm s = validateForm t := by
  rw [validateForm_eq s, validateForm_eq t, h1, h2, h3, h4]

/-- C9 witness: two concrete states with equal values but different junk in
the error displays and success message validate identically. -/
theorem validateForm_deterministic_witness :
    validateForm (mkFormState ['A', 'l'] [] [] []) =
      validateForm
        { name := ⟨['A', 'l'], ['j'], true⟩, email := ⟨[], ['k'], true⟩,
          password := ⟨[], [], true⟩, confirmPassword := ⟨[], ['z'], false⟩,
          successText := ['s'] } :=
  validateForm_deterministic _ _ rfl rfl rfl rfl

/-- C10: when both password values are empty the confirm rule passes — the
pass leaves confirm-password clear — while the password rule itself fails. -/
theorem emptyPasswords_confirm_clear (s : FormState)
    (hp : s.password.value = []) (hc : s.confirmPassword.value = []) :
    (validateForm s).1.confirmPassword.errorText = [] ∧
    (validateForm s).1.confirmPassword.invalid = false ∧
    (validateForm s).1.password.errorText = passwordErrMsg ∧
    (validateForm s).1.password.invalid = true := by
  rw [validateForm_eq]
  simp [hp, hc]

/-- C10 witness: the completely empty form shows errors on name, email and
password, and none on confirm-password. -/
theorem emptyPasswords_confirm_clear_witness :
    ((validateForm emptyForm).1.confirmPassword.errorText = [] ∧
     (validateForm emptyForm).1.confirmPassword.invalid = false ∧
     (validateForm emptyForm).1.password.errorText = passwordErrMsg ∧
     (validateForm emptyForm).1.password.invalid = true) ∧
    (validateForm emptyForm).1.name.invalid = true ∧
    (validateForm emptyForm).1.email.invalid = true :=
  ⟨emptyPasswords_confirm_clear emptyForm rfl rfl, by decide, by decide⟩

/-- C2: the submit handler runs the pass; on success it writes the literal
success message and empties the four input values (the pass itself has
already cleared every error display), on failure it leaves the pass's
output as is — per-field errors standing, success message empty. -/
theorem formSubmit_submit_spec (s : FormState) :
    formSubmit s =
      if (validateForm s).2 then
        { name := ⟨[], [], false⟩, email := ⟨[], [], false⟩,
          password := ⟨[], [], false⟩, confirmPassword := ⟨[], [], false⟩,
          successText := successMsg }
      else (validateForm s).1 := by
  have hv := validateForm_eq s
  by_cases h : (validateForm s).2 = true
  · have h' := h
    rw [hv] at h'
    simp only [Bool.and_eq_true, Bool.not_eq_true'] at h'
    obtain ⟨⟨⟨hn, he⟩, hp⟩, hc⟩ := h'
    rw [decide_eq_false_iff_not] at hn hp
    have hc' := of_decide_eq_true hc
    unfold formSubmit
    rw [if_pos h, if_pos h, hv]
    simp [hn, hp, hc', he]
  · unfold formSubmit
    rw [if_neg h, if_neg h, hv]

/-- C3: the rule boundaries are exact — trimmed name length 2 fails and 3
passes, raw password length 7 fails and 8 passes, and a three-space name
fails because the trim runs before the length check. -/
theorem validateForm_boundaries :
    (∀ s : FormState, (jsTrim s.name.value).length = 2 →
        (validateForm s).1.name.errorText = nameErrMsg ∧
        (validateForm s).1.name.invalid = true) ∧
    (∀ s : FormState, (jsTrim s.name.value).length = 3 →
        (validateForm s).1.name.errorText = [] ∧
        (validateForm s).1.name.invalid = false) ∧
    (∀ s : FormState, s.password.value.length = 7 →
        (validateForm s).1.password.errorText = passwordErrMsg ∧
        (validateForm s).1.password.invalid = true) ∧
    (∀ s : FormState, s.password.value.length = 8 →
        (validateForm s).1.password.errorText = [] ∧
        (validateForm s).1.password.invalid = false) ∧
    (∀ s : FormState, s.name.value = [' ', ' ', ' '] →
        (validateForm s).1.name.errorText = nameErrMsg ∧
        (validateForm s).1.name.invalid = true) := by
  refine ⟨?_, ?_, ?_, ?_, ?_⟩
  · intro s h
    rw [validateForm_eq]
    simp [h]
  · intro s h
    rw [validateForm_eq]
    simp [h]
  · intro s h
    rw [validateForm_eq]
    simp [h]
  · intro s h
    rw [validateForm_eq]
    simp [h]
  · intro s h
    have hj : (jsTrim s.name.value).length = 0 := by rw [h]; decide
    rw [validateForm_eq]
    simp [hj]

/-- C3 witness: the boundaries at concrete inputs — a 2-letter and a
3-letter name, a 7- and an 8-character password, a three-space name. -/
theorem validateForm_boundaries_witness :
    ((validateForm (mkFormState ['A', 'l'] [] [] [])).1.name.errorText = nameErrMsg ∧
     (validateForm (mkFormState ['A', 'l'] [] [] [])).1.name.invalid = true) ∧
    ((validateForm (mkFormState ['A', 'b', 'e'] [] [] [])).1.name.errorText = [] ∧
     (validateForm (mkFormState ['A', 'b', 'e'] [] [] [])).1.name.invalid = false) ∧
    ((validateForm (mkFormState [] [] ['p', 'a', 's', 's', 'w', 'r', 'd'] [])).1.password.errorText = passwordErrMsg ∧
     (validateForm (mkFormState [] [] ['p', 'a', 's', 's', 'w', 'r', 'd'] [])).1.password.invalid = true) ∧
    ((validateForm (mkFormState [] [] ['p', 'a', 's', 's', 'w', 'o', 'r', 'd'] [])).1.password.errorText = [] ∧
     (validateForm (mkFormState [] [] ['p', 'a', 's', 's', 'w', 'o', 'r', 'd'] [])).1.password.invalid = false) ∧
    ((validateForm (mkFormState [' ', ' ', ' '] [] [] [])).1.name.errorText = nameErrMsg ∧
     (validateForm (mkFormState [' ', ' ', ' '] [] [] [])).1.name.invalid = true) :=
  ⟨validateForm_boundaries.1 (mkFormState ['A', 'l'] [] [] []) (by decide),
   validateForm_boundaries.2.1 (mkFormState ['A', 'b', 'e'] [] [] []) (by decide),
   validateForm_boundaries.2.2.1 (mkFormState [] [] ['p', 'a', 's', 's', 'w', 'r', 'd'] []) (by decide),
   validateForm_boundaries.2.2.2.1 (mkFormState [] [] ['p', 'a', 's', 's', 'w', 'o', 'r', 'd'] []) (by decide),
   validateForm_boundaries.2.2.2.2 (mkFormState [' ', ' ', ' '] [] [] []) rfl⟩

/-- A field's error display agrees with its marker: non-empty text exactly
when the marker is present. -/
def fieldInv (f : FieldState) : Prop := f.errorText ≠ [] ↔ f.invalid = true

/-- The display/marker agreement for all four fields. -/
def formInv (s : FormState) : Prop :=
  fieldInv s.name ∧ fieldInv s.email ∧ fieldInv s.password ∧ fieldInv s.confirmPassword

theorem nameErrMsg_ne_nil : nameErrMsg ≠ [] := by decide

theorem emailErrMsg_ne_nil : emailErrMsg ≠ [] := by decide

theorem passwordErrMsg_ne_nil : passwordErrMsg ≠ [] := by decide

theorem confirmErrMsg_ne_nil : confirmErrMsg ≠ [] := by decide

theorem fieldInv_if (v msg : List Char) (c : Prop) [Decidable c] (hm : msg ≠ []) :
    fieldInv ⟨v, if c then msg else [], decide c⟩ := by
  by_cases h : c <;> simp [fieldInv, h, hm]

theorem fieldInv_ifn (v msg : List Char) (c : Prop) [Decidable c] (hm : msg ≠ []) :
    fieldInv ⟨v, if c then [] else msg, !decide c⟩ := by
  by_cases h : c <;> simp [fieldInv, h, hm]

theorem fieldInv_boolPass (v msg : List Char) (b : Bool) (hm : msg ≠ []) :
    fieldInv ⟨v, if b = true then [] else msg, !b⟩ := by
  cases b <;> simp [fieldInv, hm]

theorem formInv_validateForm (s : FormState) : formInv (validateForm s).1 := by
  rw [validateForm_eq]
  refine ⟨?_, ?_, ?_, ?_⟩
  · by_cases h : (jsTrim s.name.value).length < 3 <;>
      simp [fieldInv, h, nameErrMsg_ne_nil]
  · by_cases h : emailRegexTest (jsTrim s.email.value) = true <;>
      simp [fieldInv, h, emailErrMsg_ne_nil]
  · by_cases h : s.password.value.length < 8 <;>
      simp [fieldInv, h, passwordErrMsg_ne_nil]
  · by_cases h : s.confirmPassword.value = s.password.value <;>
      simp [fieldInv, h, confirmErrMsg_ne_nil]

/-- C5: after a full pass and after a submit the display/marker agreement
holds outright; each keyup handler preserves it. -/
theorem error_marker_invariant (s : FormState) :
    formInv (validateForm s).1 ∧ formInv (formSubmit s) ∧
    (formInv s →
      formInv (nameKeyup s) ∧ formInv (emailKeyup s) ∧
      formInv (passwordKeyup s) ∧ formInv (confirmPasswordKeyup s)) := by
  refine ⟨formInv_validateForm s, ?_, ?_⟩
  · unfold formSubmit
    by_cases h : (validateForm s).2 = true
    · rw [if_pos h, validateForm_eq s]
      exact ⟨fieldInv_if _ _ _ nameErrMsg_ne_nil,
             fieldInv_boolPass _ _ _ emailErrMsg_ne_nil,
             fieldInv_if _ _ _ passwordErrMsg_ne_nil,
             fieldInv_ifn _ _ _ confirmErrMsg_ne_nil⟩
    · rw [if_neg h, validateForm_eq s]
      exact ⟨fieldInv_if _ _ _ nameErrMsg_ne_nil,
             fieldInv_boolPass _ _ _ emailErrMsg_ne_nil,
             fieldInv_if _ _ _ passwordErrMsg_ne_nil,
             fieldInv_ifn _ _ _ confirmErrMsg_ne_nil⟩
  · intro hs
    obtain ⟨a, b, c, d⟩ := hs
    refine ⟨?_, ?_, ?_, ?_⟩
    · unfold nameKeyup
      split
      · exact ⟨by simp [fieldInv, clearError], b, c, d⟩
      · exact ⟨a, b, c, d⟩
    · unfold emailKeyup
      split
      · exact ⟨a, by simp [fieldInv, clearError], c, d⟩
      · exact ⟨a, b, c, d⟩
    · unfold passwordKeyup
      split
      · exact ⟨a, b, by simp [fieldInv, clearError], d⟩
      · exact ⟨a, b, c, d⟩
    · unfold confirmPasswordKeyup
      split
      · exact ⟨a, b, c, by simp [fieldInv, clearError]⟩
      · exact ⟨a, b, c, d⟩

/-- C5 witness: the agreement holds concretely after a pass over the empty
form, and a keyup on a state satisfying it preserves it. -/
theorem error_marker_invariant_witness :
    formInv (validateForm emptyForm).1 ∧ formInv (nameKeyup emptyForm) := by
  have h := error_marker_invariant emptyForm
  refine ⟨h.1, (h.2.2 ?_).1⟩
  simp [formInv, fieldInv, emptyForm, mkFormState]

/-- C4: each keyup handler re-checks only its own field's rule; it clears
that field's error and marker when the rule holds and otherwise leaves the
whole state untouched — so no handler ever writes an error or a marker, or
touches another field — and the confirm handler compares against the
password field's current value. -/
theorem keyup_handlers_spec (s : FormState) :
    ((nameKeyup s).email = s.email ∧ (nameKeyup s).password = s.password ∧
     (nameKeyup s).confirmPassword = s.confirmPassword ∧
     (nameKeyup s).successText = s.successText ∧
     (nameKeyup s).name.value = s.name.value ∧
     (3 ≤ (jsTrim s.name.value).length → (nameKeyup s).name = clearError s.name) ∧
     (¬ 3 ≤ (jsTrim s.name.value).length → nameKeyup s = s)) ∧
    ((emailKeyup s).name = s.name ∧ (emailKeyup s).password = s.password ∧
     (emailKeyup s).confirmPassword = s.confirmPassword ∧
     (emailKeyup s).successText = s.successText ∧
     (emailKeyup s).email.value = s.email.value ∧
     (emailRegexTest (jsTrim s.email.value) = true →
        (emailKeyup s).email = clearError s.email) ∧
     (¬ emailRegexTest (jsTrim s.email.value) = true → emailKeyup s = s)) ∧
    ((passwordKeyup s).name = s.name ∧ (passwordKeyup s).email = s.email ∧
     (passwordKeyup s).confirmPassword = s.confirmPassword ∧
     (passwordKeyup s).successText = s.successText ∧
     (passwordKeyup s).password.value = s.password.value ∧
     (8 ≤ s.password.value.length → (passwordKeyup s).password = clearError s.password) ∧
     (¬ 8 ≤ s.password.value.length → passwordKeyup s = s)) ∧
    ((confirmPasswordKeyup s).name = s.name ∧ (confirmPasswordKeyup s).email = s.email ∧
     (confirmPasswordKeyup s).password = s.password ∧
     (confirmPasswordKeyup s).successText = s.successText ∧
     (confirmPasswordKeyup s).confirmPassword.value = s.confirmPassword.value ∧
     (s.confirmPassword.value = s.password.value →
        (confirmPasswordKeyup s).confirmPassword = clearError s.confirmPassword) ∧
     (s.confirmPassword.value ≠ s.password.value → confirmPasswordKeyup s = s)) := by
  refine ⟨?_, ?_, ?_, ?_⟩
  · unfold nameKeyup
    by_cases h : 3 ≤ (jsTrim s.name.value).length <;>
      simp [h, clearError]
  · unfold emailKeyup
    by_cases h : emailRegexTest (jsTrim s.email.value) = true <;>
      simp [h, clearError]
  · unfold passwordKeyup
    by_cases h : 8 ≤ s.password.value.length <;>
      simp [h, clearError]
  · unfold confirmPasswordKeyup
    by_cases h : s.confirmPassword.value = s.password.value <;>
      simp [h, clearError]

/-- C4 witness: on a state whose four values all satisfy their rules, each
keyup handler clears its own field, and on one failing its rule the name
handler is the identity. -/
theorem keyup_handlers_spec_witness :
    (nameKeyup (mkFormState "Alice".toList "alice@example.com".toList "password1".toList "password1".toList)).name =
      clearError (mkFormState "Alice".toList "alice@example.com".toList "password1".toList "password1".toList).name ∧
    (confirmPasswordKeyup (mkFormState "Alice".toList "alice@example.com".toList "password1".toList "password1".toList)).confirmPassword =
      clearError (mkFormState "Alice".toList "alice@example.com".toList "password1".toList "password1".toList).confirmPassword ∧
    nameKeyup (mkFormState "Al".toList [] [] []) = mkFormState "Al".toList [] [] [] := by
  refine ⟨?_, ?_, ?_⟩
  · exact (keyup_handlers_spec _).1.2.2.2.2.2.1 (by decide)
  · exact (keyup_handlers_spec _).2.2.2.2.2.2.2.2.1 (by decide)
  · exact (keyup_handlers_spec _).1.2.2.2.2.2.2 (by decide)

/-- The label the toggle handler itself writes for a given mode. -/
def canonicalLabel (dark : Bool) : List Char :=
  if dark then darkLabel else lightLabel

/-- C6 counterexample: from a starting state whose label is not one the
handler writes, two activations restore the marker but not the label, so
the toggle is not an involution on every starting state. -/
theorem themeToggle_involution_counterexample :
    themeToggleClick (themeToggleClick { darkMode := false, buttonLabel := ['X'] }) ≠
      { darkMode := false, buttonLabel := ['X'] } := by
  decide

/-- C6 (amended): two activations always return the page-root marker to
its original value, and they also return the button label whenever the
starting label is the one the handler writes for the starting mode. -/
theorem themeToggle_involution (t : ThemeState) :
    (themeToggleClick (themeToggleClick t)).darkMode = t.darkMode ∧
    (t.buttonLabel = canonicalLabel t.darkMode →
      themeToggleClick (themeToggleClick t) = t) := by
  obtain ⟨d, l⟩ := t
  cases d <;>
    simp [themeToggleClick, canonicalLabel] <;>
    intro h <;> simp [h]

/-- C6 witness: from the light mode with its matching label, two clicks
restore the exact starting state. -/
theorem themeToggle_involution_witness :
    themeToggleClick (themeToggleClick ⟨false, lightLabel⟩) = (⟨false, lightLabel⟩ : ThemeState) :=
  (themeToggle_involution ⟨false, lightLabel⟩).2 rfl

/-- C7: clicking question `i` leaves every other pair's two markers
unchanged, and flips exactly pair `i`'s two markers. -/
theorem faqClick_independent (pairs : List FaqPair) (i j : Nat) (h : i ≠ j) :
    (faqClick pairs i)[j]? = pairs[j]? ∧
    (∀ p, pairs[i]? = some p → (faqClick pairs i)[i]? = some (faqToggle p)) := by
  constructor
  · unfold faqClick
    cases hp : pairs[i]? with
    | none => rfl
    | some p => exact List.getElem?_set_ne h
  · intro p hp
    unfold faqClick
    rw [hp]
    obtain ⟨hi, -⟩ := List.getElem?_eq_some.mp hp
    exact List.getElem?_set_eq_of_lt _ hi

/-- C7 witness: in a two-pair list, clicking the first pair leaves the
second pair's entry unchanged and flips the first pair's markers. -/
theorem faqClick_independent_witness :
    (faqClick [⟨false, false⟩, ⟨true, false⟩] 0)[1]? = [(⟨false, false⟩ : FaqPair), ⟨true, false⟩][1]? ∧
    (faqClick [⟨false, false⟩, ⟨true, false⟩] 0)[0]? = some (faqToggle ⟨false, false⟩) :=
  ⟨(faqClick_independent [⟨false, false⟩, ⟨true, false⟩] 0 1 (by decide)).1,
   (faqClick_independent [⟨false, false⟩, ⟨true, false⟩] 0 1 (by decide)).2 ⟨false, false⟩ rfl⟩

end PageScript
